import Mathlib

/-!
Verification of the resilient batch transfer engine of the lighthouse
tooling repository.  The definitions below are shallow embeddings of the
TypeScript sources: the mock service batch loops from
`apps/mcp-server/src/server.ts`, the SDK wrapper aggregation, defaults and
layering from `packages/sdk-wrapper/src/types.ts`, the boundary tool
validation from `apps/mcp-server/src/tools`, and — for the components whose
implementation files are not part of the source tree (CircuitBreaker,
ConnectionPool, BatchProcessor, MemoryManager) — state machines modelled
from the specification, each marked as such in its doc comment.
-/

/-- Result of one mock upload, as produced by `MockLighthouseService.uploadFile`
and consumed by `batchUploadFiles` (server.ts). -/
structure UploadResult where
  cid : String
  size : Nat
  encrypted : Bool
  uploadedAt : String
deriving Repr, DecidableEq

/-- File metadata record placed in successful batch upload entries
(server.ts / types.ts `FileInfo`). -/
structure FileInfo where
  hash : String
  name : String
  size : Nat
  encrypted : Bool
  mimeType : String
  uploadedAt : String
deriving Repr, DecidableEq

/-- Result of one mock download (`BatchDownloadFileResult` in the sources). -/
structure DownloadResult where
  cid : String
  filePath : String
  size : Nat
  decrypted : Bool
deriving Repr, DecidableEq

/-- Per-item entry of a batch result (`BatchFileResult` in types.ts; the same
shape is pushed by the server.ts batch loops). -/
structure BatchFileResult (α : Type) where
  id : String
  success : Bool
  data : Option α
  error : Option String
  duration : Nat
  retries : Nat
deriving Repr, DecidableEq

/-- Aggregated batch result (`BatchOperationResult` in types.ts).  Ratios are
represented as rationals. -/
structure BatchOperationResult (α : Type) where
  total : Nat
  successful : Nat
  failed : Nat
  successRate : Rat
  totalDuration : Nat
  averageDuration : Rat
  results : List (BatchFileResult α)
deriving Repr, DecidableEq

/-- server.ts batch upload success branch computes the entry name as
`filePath.split("/").pop() || filePath`. -/
def uploadNameOf (filePath : String) : String :=
  let last := (filePath.splitOn "/").getLastD ""
  if last = "" then filePath else last

/-- The `FileInfo` built for a successful item by
`MockLighthouseService.batchUploadFiles`. -/
def mkUploadFileInfo (filePath : String) (ur : UploadResult) : FileInfo :=
  { hash := ur.cid, name := uploadNameOf filePath, size := ur.size,
    encrypted := ur.encrypted, mimeType := "application/octet-stream",
    uploadedAt := ur.uploadedAt }

/-- The per-item loop shared by `MockLighthouseService.batchUploadFiles` and
`batchDownloadFiles` (server.ts, two textually parallel loops): one entry is
pushed per item; on an item error the error is re-thrown unless
`options?.continueOnError` is truthy (`some true`), in which case a failure
entry is pushed instead.  `run` stands for the awaited per-item transfer
(`this.uploadFile` / `this.fetchFile`) and `itemDur` for the measured
wall-clock duration of the item. -/
def mockBatchGo (run : String → Except String α) (itemDur : String → Nat)
    (continueOnError : Option Bool) :
    List String → List (BatchFileResult α) → Except String (List (BatchFileResult α))
  | [], acc => .ok acc.reverse
  | p :: rest, acc =>
    match run p with
    | .ok v =>
      mockBatchGo run itemDur continueOnError rest
        ({ id := p, success := true, data := some v, error := none,
           duration := itemDur p, retries := 0 } :: acc)
    | .error e =>
      if continueOnError = some true then
        mockBatchGo run itemDur continueOnError rest
          ({ id := p, success := false, data := none, error := some e,
             duration := itemDur p, retries := 0 } :: acc)
      else
        .error e

/-- The common body of `MockLighthouseService.batchUploadFiles` and
`batchDownloadFiles` (server.ts): run the loop, then aggregate with
`successRate = (successful / items.length) * 100` guarded by
`items.length > 0`, and `averageDuration = totalDuration / results.length`
guarded by `results.length > 0`. -/
def mockBatchFiles (run : String → Except String α) (itemDur : String → Nat)
    (totalDuration : Nat) (items : List String) (continueOnError : Option Bool) :
    Except String (BatchOperationResult α) :=
  match mockBatchGo run itemDur continueOnError items [] with
  | .error e => .error e
  | .ok results =>
    let successful := results.countP (fun r => r.success)
    let failed := results.countP (fun r => !r.success)
    .ok { total := items.length, successful := successful, failed := failed,
          successRate :=
            if 0 < items.length then
              ((successful : Rat) / (items.length : Rat)) * 100
            else 0,
          totalDuration := totalDuration,
          averageDuration :=
            if 0 < results.length then
              (totalDuration : Rat) / (results.length : Rat)
            else 0,
          results := results }

/-- `MockLighthouseService.batchUploadFiles` (server.ts), parameterized by the
outcome of `this.uploadFile` for each path and by the measured durations. -/
def batchUploadFiles (upload : String → Except String UploadResult)
    (itemDur : String → Nat) (totalDuration : Nat) (filePaths : List String)
    (continueOnError : Option Bool) : Except String (BatchOperationResult FileInfo) :=
  mockBatchFiles (fun p => (upload p).map (mkUploadFileInfo p)) itemDur
    totalDuration filePaths continueOnError

/-- `MockLighthouseService.batchDownloadFiles` (server.ts), parameterized by the
outcome of `this.fetchFile` for each cid; a successful item entry carries the
`cid`, `filePath`, `size` and `decrypted` fields of the download result. -/
def batchDownloadFiles (fetch : String → Except String DownloadResult)
    (itemDur : String → Nat) (totalDuration : Nat) (cids : List String)
    (continueOnError : Option Bool) : Except String (BatchOperationResult DownloadResult) :=
  mockBatchFiles fetch itemDur totalDuration cids continueOnError

/-- Result aggregation of `LighthouseAISDK.batchUpload` / `batchDownload`
(types.ts): `successRate = successful / files.length` guarded by
`files.length > 0`; `averageDuration = totalDuration / files.length` is
unguarded in the source (NaN in JS on an empty batch — irrelevant here since
no claim evaluates it at zero). -/
def sdkBatchAggregate (filesLen : Nat) (results : List (BatchFileResult α))
    (totalDuration : Nat) : BatchOperationResult α :=
  let successful := results.countP (fun r => r.success)
  let failed := results.countP (fun r => !r.success)
  { total := filesLen, successful := successful, failed := failed,
    results := results, totalDuration := totalDuration,
    averageDuration := (totalDuration : Rat) / (filesLen : Rat),
    successRate := if 0 < filesLen then (successful : Rat) / (filesLen : Rat) else 0 }

/-- Batch options at the SDK layer (types.ts `BatchUploadOptions` /
`BatchDownloadOptions`, the fields the claims use). -/
structure BatchUploadOptions where
  concurrency : Option Nat
  continueOnError : Option Bool
  maxRetries : Option Nat
deriving Repr, DecidableEq

/-- types.ts batchUpload: `continueOnError = options.continueOnError ?? true`. -/
def sdkContinueOnError (options : BatchUploadOptions) : Bool :=
  options.continueOnError.getD true

/-- types.ts batchUpload: `concurrency = options.concurrency ?? 3`. -/
def sdkConcurrency (options : BatchUploadOptions) : Nat :=
  options.concurrency.getD 3

/-- The error of the first item (in input order) whose transfer fails, if
any.  This is the error that the mock batch loops re-throw when
`continueOnError` is not truthy. -/
def firstRunError (run : String → Except String α) : List String → Option String
  | [] => none
  | p :: rest =>
    match run p with
    | .ok _ => firstRunError run rest
    | .error e => some e

/-- A file-system stat result as observed by the upload tool validator
(`fs.stat` in tools/index.ts): the isFile flag and the size in bytes; `none`
models a thrown stat error. -/
structure FileStat where
  isFile : Bool
  size : Nat
deriving Repr, DecidableEq

/-- Parameters of the lighthouse_batch_upload tool (tools/index.ts
`BatchUploadParams`), with JS numbers as rationals. -/
structure BatchUploadParams where
  filePaths : List String
  concurrency : Option Rat
  encrypt : Option Bool
  accessConditions : Option (List Unit)
  tags : Option (List String)
  continueOnError : Option Bool
deriving Repr, DecidableEq

/-- `Math.round(size / 1024 / 1024)` for a byte count (round half up). -/
def roundMB (size : Nat) : Nat :=
  (size + 524288) / 1048576

/-- `files.slice(0, shown).join(", ")` followed by ``and N more`` when more
than `shown` entries exist — the list formatting used by the upload tool
validation messages. -/
def sliceJoinMore (files : List String) (shown : Nat) : String :=
  String.intercalate ", " (files.take shown) ++
    (if shown < files.length then
      " and " ++ toString (files.length - shown) ++ " more"
    else "")

/-- The per-path loop of `LighthouseBatchUploadTool.validateParams`: an empty
path aborts validation immediately with an error; a stat failure or a
non-file records the path in `invalidFiles`; a file over the 100MB limit
records `path (NMB)` in `oversizedFiles`. -/
def collectFileIssues (stat : String → Option FileStat) :
    List String → Except String (List String × List String)
  | [] => .ok ([], [])
  | p :: rest =>
    if p = "" then .error "Each filePath must be a non-empty string"
    else
      let issue : List String × List String :=
        match stat p with
        | none => ([p], [])
        | some st =>
          if !st.isFile then ([p], [])
          else if 104857600 < st.size then
            ([], [p ++ " (" ++ toString (roundMB st.size) ++ "MB)"])
          else ([], [])
      match collectFileIssues stat rest with
      | .error e => .error e
      | .ok (inv, ov) => .ok (issue.1 ++ inv, issue.2 ++ ov)

/-- The tail of `LighthouseBatchUploadTool.validateParams` after the
concurrency check: access conditions of positive length require `encrypt`
to be truthy.  (The dynamic type checks on `encrypt` and `tags` are
discharged by the typed embedding.) -/
def validateUploadTail (params : BatchUploadParams) : Option String :=
  match params.accessConditions with
  | some conds =>
    if 0 < conds.length ∧ params.encrypt ≠ some true then
      some "Access conditions require encryption to be enabled"
    else none
  | none => none

/-- `LighthouseBatchUploadTool.validateParams` (tools/index.ts): returns the
first failing validation message, `none` when the parameters are accepted.
The concurrency clause rejects any present value below 1 or above 10. -/
def validateBatchUploadParams (stat : String → Option FileStat)
    (params : BatchUploadParams) : Option String :=
  if params.filePaths.length = 0 then some "filePaths cannot be empty"
  else if 100 < params.filePaths.length then
    some "filePaths cannot exceed 100 files per batch"
  else
    match collectFileIssues stat params.filePaths with
    | .error e => some e
    | .ok (invalid, oversized) =>
      if 0 < invalid.length then
        some ("Cannot access files: " ++ sliceJoinMore invalid 5)
      else if 0 < oversized.length then
        some ("Files exceed 100MB limit: " ++ sliceJoinMore oversized 3)
      else
        match params.concurrency with
        | some c =>
          if c < 1 ∨ 10 < c then
            some "concurrency must be a number between 1 and 10"
          else validateUploadTail params
        | none => validateUploadTail params

/-- The concurrency validation clause of
`LighthouseBatchDownloadTool.validateParams` (the same code as in the upload
tool). -/
def validateDownloadConcurrency (c : Option Rat) : Option String :=
  match c with
  | some v =>
    if v < 1 ∨ 10 < v then
      some "concurrency must be a number between 1 and 10"
    else none
  | none => none

/-- JS `x || d` on an optional number: the default is used when the value is
absent or falsy (0). -/
def jsNumOr (x : Option Rat) (d : Rat) : Rat :=
  match x with
  | none => d
  | some v => if v = 0 then d else v

/-- `params.continueOnError ?? true` as resolved by the tool execute methods. -/
def toolContinueOnError (p : Option Bool) : Bool :=
  p.getD true

/-- The batch options that `LighthouseBatchUploadTool.execute` passes to the
service. -/
structure BatchUploadServiceCall where
  concurrency : Rat
  continueOnError : Bool
deriving Repr, DecidableEq

/-- The service invocation made by `LighthouseBatchUploadTool.execute`
(tools/index.ts): `none` when validation failed (the tool answers
success:false without calling the service); otherwise the options passed to
`batchUploadFiles`, with `concurrency: params.concurrency || 3` and
`continueOnError: params.continueOnError ?? true`. -/
def batchUploadToolServiceCall (stat : String → Option FileStat)
    (params : BatchUploadParams) : Option BatchUploadServiceCall :=
  match validateBatchUploadParams stat params with
  | some _ => none
  | none =>
    some { concurrency := jsNumOr params.concurrency 3,
           continueOnError := toolContinueOnError params.continueOnError }

/-- Modelled from the spec: the BatchProcessor (its implementation file is
absent from the source tree) reports progress after each item completes,
success or exhausted failure alike, calling its two-argument
`onProgress(completed, total)` with the number of items completed so far and
the batch size (spec: on completion, success or exhausted failure, invoke the
progress callback).  `outcomes` lists the per-item outcomes in completion
order. -/
def processorProgressReports (outcomes : List Bool) : List (Nat × Nat) :=
  (List.range outcomes.length).map (fun k => (k + 1, outcomes.length))

/-- The progress adapter installed by `LighthouseAISDK.batchUpload`
(types.ts): on each processor report it sets `completedCount = completed` and
`failedCount = total - completed`, then calls the user callback as
`onProgress(completedCount, files.length, failedCount)`. -/
def sdkProgressAdapter (filesLen completed total : Nat) : Nat × Nat × Nat :=
  (completed, filesLen, total - completed)

/-- The sequence of `(completed, total, failures)` triples delivered to the
caller-supplied `onProgress` during `batchUpload` over `outcomes`. -/
def batchUploadUserProgress (outcomes : List Bool) : List (Nat × Nat × Nat) :=
  (processorProgressReports outcomes).map
    (fun r => sdkProgressAdapter outcomes.length r.1 r.2)

/-- Number of failures among the first `k` completed items. -/
def failuresSoFar (outcomes : List Bool) (k : Nat) : Nat :=
  (outcomes.take k).countP (fun b => !b)

/-- Events observable at the SDK resilience layer during one operation. -/
inductive SdkEv
  | rateAcquire
  | breakerExec
  | attempt
deriving Repr, DecidableEq

/-- Modelled from the spec: `ErrorHandler.executeWithRetry` (its
implementation file is absent from the source tree) makes an attempt, stops
on success, and otherwise retries while attempts remain (spec: retry up to
maxRetries with backoff).  `attemptResults` lists the outcome of each
successive attempt, with length at most maxRetries + 1.  One `attempt` event
is emitted per attempt; the retry loop itself never invokes the circuit
breaker. -/
def executeWithRetryTrace : List Bool → List SdkEv
  | [] => []
  | b :: rest => .attempt :: (if b then [] else executeWithRetryTrace rest)

/-- types.ts `executeWithRateLimit`: `await this.rateLimiter.acquire()`
followed by `this.circuitBreaker.execute(operation, operationName)` — one
breaker-guarded execution wrapping the whole operation. -/
def executeWithRateLimitTrace (opTrace : List SdkEv) : List SdkEv :=
  .rateAcquire :: .breakerExec :: opTrace

/-- types.ts `uploadFile`: the operation handed to `executeWithRateLimit` is
`() => this.errorHandler.executeWithRetry(work, "upload")`, so the whole
retry loop runs inside the single breaker-guarded call. -/
def uploadFileTrace (attemptResults : List Bool) : List SdkEv :=
  executeWithRateLimitTrace (executeWithRetryTrace attemptResults)

/-- Modelled from the spec: the MemoryManager (its implementation file is
absent from the source tree) maps an operation id to its reserved byte size;
`track(id, size)` records the reservation (map insert) and `untrack(id)`
removes it. -/
def memTrack (m : List (String × Nat)) (opId : String) (size : Nat) :
    List (String × Nat) :=
  (opId, size) :: m.filter (fun p => p.1 != opId)

/-- Modelled from the spec: `untrack(id)` removes the reservation for `id`. -/
def memUntrack (m : List (String × Nat)) (opId : String) : List (String × Nat) :=
  m.filter (fun p => p.1 != opId)

/-- The per-item worker body of `LighthouseAISDK.batchUpload` /
`batchDownload` (types.ts): `memoryManager.track(memoryId, size)` before the
transfer, and `memoryManager.untrack(memoryId)` in the `finally` block, so
the reservation is released whether the transfer resolves or throws. -/
def batchItemWithMemory (m : List (String × Nat)) (memoryId : String)
    (size : Nat) (transfer : Except String α) :
    List (String × Nat) × Except String α :=
  let tracked := memTrack m memoryId size
  match transfer with
  | .ok v => (memUntrack tracked memoryId, .ok v)
  | .error e => (memUntrack tracked memoryId, .error e)

/-- Circuit breaker states (sdk-wrapper `CircuitState`). -/
inductive CircuitState
  | closed
  | opened
  | halfOpen
deriving Repr, DecidableEq

/-- Circuit breaker configuration: `failureThreshold` consecutive failures
trip the breaker; `resetTimeout` milliseconds must elapse before a probe. -/
structure CircuitBreakerConfig where
  failureThreshold : Nat
  resetTimeout : Nat
deriving Repr, DecidableEq

/-- Modelled from the spec: the CircuitBreaker state (its implementation file
is absent from the source tree): current state, consecutive failure count,
the time the breaker opened, and whether a half-open probe is in flight. -/
structure CircuitBreaker where
  state : CircuitState
  failureCount : Nat
  openedAt : Nat
  probeInFlight : Bool
deriving Repr, DecidableEq

/-- Modelled from the spec: admission decision at the start of
`CircuitBreaker.execute`.  CLOSED passes the call through; OPEN rejects
immediately until `now - openedAt >= resetTimeout` and then admits the call
as the half-open probe; HALF_OPEN rejects while a probe is in flight and
admits at most one probe otherwise.  Returns the new state and whether the
wrapped function is invoked. -/
def cbBegin (cfg : CircuitBreakerConfig) (cb : CircuitBreaker) (now : Nat) :
    CircuitBreaker × Bool :=
  match cb.state with
  | .closed => (cb, true)
  | .opened =>
    if cfg.resetTimeout ≤ now - cb.openedAt then
      ({ cb with state := .halfOpen, probeInFlight := true }, true)
    else (cb, false)
  | .halfOpen =>
    if cb.probeInFlight then (cb, false)
    else ({ cb with probeInFlight := true }, true)

/-- Modelled from the spec: state update when an admitted call finishes.
A half-open probe success closes the circuit and resets the counters; a probe
failure re-opens it with a fresh `openedAt`.  In CLOSED, a success resets the
consecutive-failure counter and a failure increments it, opening the circuit
when the counter reaches `failureThreshold`. -/
def cbEnd (cfg : CircuitBreakerConfig) (cb : CircuitBreaker) (now : Nat)
    (success : Bool) : CircuitBreaker :=
  match cb.state, success with
  | .halfOpen, true =>
    { state := .closed, failureCount := 0, openedAt := cb.openedAt,
      probeInFlight := false }
  | .halfOpen, false =>
    { state := .opened, failureCount := cb.failureCount, openedAt := now,
      probeInFlight := false }
  | .closed, true => { cb with failureCount := 0 }
  | .closed, false =>
    if cfg.failureThreshold ≤ cb.failureCount + 1 then
      { state := .opened, failureCount := cb.failureCount + 1, openedAt := now,
        probeInFlight := false }
    else { cb with failureCount := cb.failureCount + 1 }
  | .opened, _ => cb

/-- One failing call through the breaker at time `now`: admission followed,
when admitted, by a failure completion. -/
def cbFailedCall (cfg : CircuitBreakerConfig) (now : Nat)
    (cb : CircuitBreaker) : CircuitBreaker :=
  let adm := cbBegin cfg cb now
  if adm.2 then cbEnd cfg adm.1 now false else adm.1

/-- `n` consecutive failing calls at time `now`. -/
def cbFailN (cfg : CircuitBreakerConfig) (now : Nat) :
    Nat → CircuitBreaker → CircuitBreaker
  | 0, cb => cb
  | n + 1, cb => cbFailN cfg now n (cbFailedCall cfg now cb)

/-- The pristine breaker installed by the SDK constructor. -/
def cbInit : CircuitBreaker :=
  { state := .closed, failureCount := 0, openedAt := 0, probeInFlight := false }

/-- The breaker after `failureThreshold` consecutive failures at time `t0`
starting from the pristine state. -/
def cbAfterTrip (cfg : CircuitBreakerConfig) (t0 : Nat) : CircuitBreaker :=
  cbFailN cfg t0 cfg.failureThreshold cbInit

/-- Connection pool configuration (sdk-wrapper `ConnectionPoolConfig`). -/
structure PoolConfig where
  maxConnections : Nat
deriving Repr, DecidableEq

/-- Modelled from the spec: the ConnectionPool state (its implementation file
is absent from the source tree; its unit tests are): idle and active
connection ids, the id counters for lazily created connections and queued
acquire requests, and the FIFO wait queue of pending acquire request ids. -/
structure PoolState where
  idle : List Nat
  active : List Nat
  nextConnId : Nat
  waitQueue : List Nat
  nextReqId : Nat
deriving Repr, DecidableEq

/-- Total connections owned by the pool (active plus idle). -/
def poolTotal (s : PoolState) : Nat :=
  s.active.length + s.idle.length

/-- Outcome of an acquire call: a connection handed out immediately, or a
queued request that will resolve on a release or reject on timeout. -/
inductive AcquireOutcome
  | conn (connId : Nat)
  | queued (reqId : Nat)
deriving Repr, DecidableEq

/-- Modelled from the spec: `ConnectionPool.acquire` — return an idle
connection if one exists; otherwise create a new connection if the total is
below `maxConnections`; otherwise append the request to the FIFO wait
queue. -/
def poolAcquire (cfg : PoolConfig) (s : PoolState) : PoolState × AcquireOutcome :=
  match s.idle with
  | c :: rest =>
    ({ s with idle := rest, active := c :: s.active }, .conn c)
  | [] =>
    if poolTotal s < cfg.maxConnections then
      ({ s with active := s.nextConnId :: s.active,
                nextConnId := s.nextConnId + 1 }, .conn s.nextConnId)
    else
      ({ s with waitQueue := s.waitQueue ++ [s.nextReqId],
                nextReqId := s.nextReqId + 1 }, .queued s.nextReqId)

/-- Modelled from the spec: the acquire timeout firing for queued request
`reqId` — the entry is removed from the wait queue and the caller is rejected
with the timeout error (message as asserted by the pool unit tests); firing
for a request no longer queued does nothing. -/
def poolTimeout (s : PoolState) (reqId : Nat) : PoolState × Option String :=
  if reqId ∈ s.waitQueue then
    ({ s with waitQueue := s.waitQueue.erase reqId },
     some "Connection acquire timeout")
  else (s, none)

/-- Modelled from the spec: `ConnectionPool.release` — when the wait queue is
non-empty the connection is immediately reassigned to the oldest waiter
(FIFO, the connection stays active) and the resolved `(reqId, connId)` pair
is returned; otherwise the connection becomes idle.  Releasing an untracked
connection is a no-op. -/
def poolRelease (s : PoolState) (connId : Nat) :
    PoolState × Option (Nat × Nat) :=
  if connId ∈ s.active then
    match s.waitQueue with
    | r :: rest => ({ s with waitQueue := rest }, some (r, connId))
    | [] =>
      ({ s with active := s.active.erase connId, idle := connId :: s.idle },
       none)
  else (s, none)

/-- Modelled from the spec: `BatchProcessor.addBatch` (the BatchProcessor
implementation file is absent from the source tree; the SDK constructs it
with the batch configuration and awaits `addBatch(operations)`).  Per the
spec, the runner processes the queued items, and on completion — success or
exhausted failure — records one BatchItemResult per item, so the returned
list has one entry per operation; when `continueOnError` is false and an
item fails terminally, it stops scheduling new items and re-throws the first
fatal error, discarding partial results.  `work` gives the per-item outcome
(the upload closure built in types.ts), `itemDur`/`itemRetries` the measured
duration and retry count recorded per item. -/
def processorAddBatch (work : String → Except String α)
    (continueOnError : Bool) (itemDur : String → Nat)
    (itemRetries : String → Nat) :
    List String → Except String (List (BatchFileResult α))
  | [] => .ok []
  | p :: rest =>
    match work p with
    | .ok v =>
      match processorAddBatch work continueOnError itemDur itemRetries rest with
      | .error e => .error e
      | .ok l =>
        .ok ({ id := p, success := true, data := some v, error := none,
               duration := itemDur p, retries := itemRetries p } :: l)
    | .error e =>
      if continueOnError then
        match processorAddBatch work continueOnError itemDur itemRetries rest with
        | .error e2 => .error e2
        | .ok l =>
          .ok ({ id := p, success := false, data := none, error := some e,
                 duration := itemDur p, retries := itemRetries p } :: l)
      else .error e

/-- `LighthouseAISDK.batchUpload` result assembly (types.ts 1743-1872): the
processor is created with `continueOnError = options.continueOnError ?? true`
wired into it, `addBatch` is awaited over one operation per input file, the
per-item entries are converted (an identity under this embedding's types)
and aggregated with `total = files.length`; when `addBatch` throws, the
`catch` block re-throws the error to the caller and no BatchOperationResult
is produced. -/
def sdkBatchUpload (work : String → Except String α)
    (options : BatchUploadOptions) (itemDur : String → Nat)
    (itemRetries : String → Nat) (fileIds : List String)
    (totalDuration : Nat) : Except String (BatchOperationResult α) :=
  match processorAddBatch work (sdkContinueOnError options) itemDur itemRetries
      fileIds with
  | .error e => .error e
  | .ok batchResults =>
    .ok (sdkBatchAggregate fileIds.length batchResults totalDuration)

/-- A demo transfer oracle: succeeds on "a" with value 7, fails with "boom"
otherwise. -/
def runDemo : String → Except String Nat :=
  fun p => if p = "a" then .ok 7 else .error "boom"

/-- A duration oracle measuring zero wall-clock time. -/
def durZero : String → Nat := fun _ => 0

/-- An upload oracle where every upload succeeds. -/
def uploadDemoOk : String → Except String UploadResult :=
  fun _ => .ok { cid := "bafy", size := 4, encrypted := false, uploadedAt := "t0" }

/-- An upload oracle where every upload fails with "boom". -/
def uploadDemoFail : String → Except String UploadResult :=
  fun _ => .error "boom"

/-- A stat oracle under which every path is a small regular file. -/
def statDemo : String → Option FileStat :=
  fun _ => some { isFile := true, size := 10 }

/-- Demo tool parameters: one valid path and a chosen concurrency value. -/
def uploadParamsDemo (c : Option Rat) : BatchUploadParams :=
  { filePaths := ["f"], concurrency := c, encrypt := none,
    accessConditions := none, tags := none, continueOnError := none }

theorem mockBatchGo_ok_length (run : String → Except String α)
    (d : String → Nat) (co : Option Bool) :
    ∀ (ps : List String) (acc l : List (BatchFileResult α)),
      mockBatchGo run d co ps acc = .ok l → l.length = acc.length + ps.length := by
  intro ps
  induction ps with
  | nil =>
    intro acc l h
    simp only [mockBatchGo, Except.ok.injEq] at h
    subst h
    simp
  | cons p rest ih =>
    intro acc l h
    cases hr : run p with
    | ok v =>
      simp only [mockBatchGo, hr] at h
      have hrec := ih _ _ h
      simp only [List.length_cons] at hrec
      simp only [List.length_cons]
      omega
    | error e =>
      simp only [mockBatchGo, hr] at h
      by_cases hco : co = some true
      · rw [if_pos hco] at h
        have hrec := ih _ _ h
        simp only [List.length_cons] at hrec
        simp only [List.length_cons]
        omega
      · rw [if_neg hco] at h
        exact absurd h (by simp)

theorem mockBatchFiles_ok_fields (run : String → Except String α)
    (d : String → Nat) (td : Nat) (items : List String) (co : Option Bool)
    (r : BatchOperationResult α)
    (h : mockBatchFiles run d td items co = .ok r) :
    r.total = items.length ∧ r.results.length = items.length ∧
    r.successful = r.results.countP (fun x => x.success) ∧
    r.failed = r.results.countP (fun x => !x.success) ∧
    r.successRate =
      (if 0 < items.length then
        ((r.successful : Rat) / (items.length : Rat)) * 100
      else 0) := by
  unfold mockBatchFiles at h
  cases hg : mockBatchGo run d co items [] with
  | error e =>
    rw [hg] at h
    exact absurd h (by simp)
  | ok l =>
    rw [hg] at h
    have hlen := mockBatchGo_ok_length run d co items [] l hg
    simp only [List.length_nil, Nat.zero_add] at hlen
    simp only [Except.ok.injEq] at h
    subst h
    refine ⟨rfl, hlen, rfl, rfl, rfl⟩

theorem mockBatchGo_error_of_first (run : String → Except String α)
    (d : String → Nat) (co : Option Bool) (hco : co ≠ some true) :
    ∀ (ps : List String) (acc : List (BatchFileResult α)) (e : String),
      firstRunError run ps = some e → mockBatchGo run d co ps acc = .error e := by
  intro ps
  induction ps with
  | nil =>
    intro acc e h
    simp [firstRunError] at h
  | cons p rest ih =>
    intro acc e h
    cases hr : run p with
    | ok v =>
      simp only [firstRunError, hr] at h
      simp only [mockBatchGo, hr]
      exact ih _ _ h
    | error e2 =>
      simp only [firstRunError, hr, Option.some.injEq] at h
      subst h
      simp only [mockBatchGo, hr, if_neg hco]

theorem countP_add_countP_not (l : List (BatchFileResult α)) :
    l.countP (fun x => x.success) + l.countP (fun x => !x.success) = l.length := by
  have h := List.length_eq_countP_add_countP (l := l) (fun x => x.success)
  simpa using h.symm

/-- C10: on an empty input list, the mock batch upload and batch download
return total = 0, successful = 0, failed = 0, successRate = 0,
averageDuration = 0 and an empty results array — the successRate and
averageDuration divisions are behind length-positive guards, so the division
by zero never happens. -/
theorem c10_empty_batch_zeroes (upload : String → Except String UploadResult)
    (fetch : String → Except String DownloadResult) (d : String → Nat)
    (td : Nat) (co : Option Bool) :
    batchUploadFiles upload d td [] co =
      .ok { total := 0, successful := 0, failed := 0, successRate := 0,
            totalDuration := td, averageDuration := 0, results := [] } ∧
    batchDownloadFiles fetch d td [] co =
      .ok { total := 0, successful := 0, failed := 0, successRate := 0,
            totalDuration := td, averageDuration := 0, results := [] } :=
  ⟨rfl, rfl⟩

/-- C1 counterexample: a mock batch upload of one file that succeeds yields
successRate = 100, not successful/total = 1 — the mock service reports a
percentage, not a fraction between 0 and 1. -/
theorem c1_successRate_counterexample :
    (batchUploadFiles uploadDemoOk durZero 10 ["a"] (some true)).toOption.map
        (fun r => (r.successRate, r.successful, r.total)) =
      some (100, 1, 1) ∧
    ((100 : Rat) ≠ (1 : Rat) / (1 : Rat)) := by
  constructor
  · simp [batchUploadFiles, mockBatchFiles, mockBatchGo, uploadDemoOk,
      durZero, Except.toOption, Except.map, List.countP_cons]
  · norm_num

/-- C1 (amended): `successful + failed = total` holds for every produced
batch result at both layers; the SDK aggregation has
`successRate = successful / total` (a fraction), while the mock service
computes `successRate = (successful / total) * 100` (a percentage). -/
theorem c1_successRate_amended (run : String → Except String α)
    (d : String → Nat) (td : Nat) (items : List String) (co : Option Bool)
    (r : BatchOperationResult α)
    (hok : mockBatchFiles run d td items co = .ok r)
    (filesLen : Nat) (results : List (BatchFileResult β)) (td2 : Nat)
    (hlen : results.length = filesLen) :
    (r.successful + r.failed = r.total ∧
      (0 < r.total →
        r.successRate = (r.successful : Rat) / (r.total : Rat) * 100)) ∧
    ((sdkBatchAggregate filesLen results td2).successful +
        (sdkBatchAggregate filesLen results td2).failed =
      (sdkBatchAggregate filesLen results td2).total ∧
      (0 < filesLen →
        (sdkBatchAggregate filesLen results td2).successRate =
          ((sdkBatchAggregate filesLen results td2).successful : Rat) /
            (((sdkBatchAggregate filesLen results td2).total : Rat)))) := by
  obtain ⟨htot, hrlen, hsucc, hfail, hrate⟩ :=
    mockBatchFiles_ok_fields run d td items co r hok
  constructor
  · constructor
    · rw [hsucc, hfail, htot, ← hrlen]
      exact countP_add_countP_not r.results
    · intro hpos
      rw [htot] at hpos
      rw [hrate, if_pos hpos, htot]
  · constructor
    · show results.countP (fun x => x.success) +
          results.countP (fun x => !x.success) = filesLen
      rw [countP_add_countP_not results, hlen]
    · intro hpos
      show (if 0 < filesLen then
              ((results.countP (fun x => x.success) : Rat) / (filesLen : Rat))
            else 0) =
          ((results.countP (fun x => x.success) : Rat) / (filesLen : Rat))
      rw [if_pos hpos]

/-- C1 witness: the amended statement at a concrete successful one-item
batch. -/
theorem c1_successRate_witness :
    ((1 : Nat) + 0 = 1 ∧
      (0 < 1 → (100 : Rat) = ((1 : Nat) : Rat) / ((1 : Nat) : Rat) * 100)) ∧
    ((sdkBatchAggregate 1
          [{ id := "a", success := true, data := some (7 : Nat), error := none,
             duration := 0, retries := 0 }] 10).successful +
        (sdkBatchAggregate 1
          [{ id := "a", success := true, data := some (7 : Nat), error := none,
             duration := 0, retries := 0 }] 10).failed =
      (sdkBatchAggregate 1
          [{ id := "a", success := true, data := some (7 : Nat), error := none,
             duration := 0, retries := 0 }] 10).total ∧
      (0 < 1 →
        (sdkBatchAggregate 1
          [{ id := "a", success := true, data := some (7 : Nat), error := none,
             duration := 0, retries := 0 }] 10).successRate =
          ((sdkBatchAggregate 1
            [{ id := "a", success := true, data := some (7 : Nat), error := none,
               duration := 0, retries := 0 }] 10).successful : Rat) /
            ((sdkBatchAggregate 1
              [{ id := "a", success := true, data := some (7 : Nat), error := none,
                 duration := 0, retries := 0 }] 10).total : Rat))) := by
  have h := c1_successRate_amended runDemo durZero 10 ["a"] (some true)
    { total := 1, successful := 1, failed := 0, successRate := 100,
      totalDuration := 10, averageDuration := 10,
      results := [{ id := "a", success := true, data := some (7 : Nat),
                    error := none, duration := 0, retries := 0 }] }
    (by simp [mockBatchFiles, mockBatchGo, runDemo, durZero]) 1
    [{ id := "a", success := true, data := some (7 : Nat), error := none,
       duration := 0, retries := 0 }] 10 rfl
  exact ⟨h.1, h.2⟩

theorem processorAddBatch_ok_length (work : String → Except String α)
    (co : Bool) (dw rw : String → Nat) :
    ∀ (ids : List String) (l : List (BatchFileResult α)),
      processorAddBatch work co dw rw ids = .ok l → l.length = ids.length := by
  intro ids
  induction ids with
  | nil =>
    intro l h
    simp only [processorAddBatch, Except.ok.injEq] at h
    subst h
    rfl
  | cons p rest ih =>
    intro l h
    cases hw : work p with
    | ok v =>
      simp only [processorAddBatch, hw] at h
      cases hrec : processorAddBatch work co dw rw rest with
      | error e => rw [hrec] at h; exact absurd h (by simp)
      | ok l2 =>
        rw [hrec] at h
        simp only [Except.ok.injEq] at h
        subst h
        simp [ih l2 hrec]
    | error e =>
      simp only [processorAddBatch, hw] at h
      by_cases hco : co = true
      · rw [if_pos hco] at h
        cases hrec : processorAddBatch work co dw rw rest with
        | error e2 => rw [hrec] at h; exact absurd h (by simp)
        | ok l2 =>
          rw [hrec] at h
          simp only [Except.ok.injEq] at h
          subst h
          simp [ih l2 hrec]
      · rw [if_neg hco] at h
        exact absurd h (by simp)

theorem processorAddBatch_error_of_first (work : String → Except String α)
    (dw rw : String → Nat) :
    ∀ (ids : List String) (e : String), firstRunError work ids = some e →
      processorAddBatch work false dw rw ids = .error e := by
  intro ids
  induction ids with
  | nil =>
    intro e h
    simp [firstRunError] at h
  | cons p rest ih =>
    intro e h
    cases hw : work p with
    | ok v =>
      simp only [firstRunError, hw] at h
      simp only [processorAddBatch, hw]
      rw [ih e h]
    | error e2 =>
      simp only [firstRunError, hw, Option.some.injEq] at h
      subst h
      simp [processorAddBatch, hw]

/-- C2: every batch invocation that returns a BatchResult has exactly one
results entry per input item (`results.length = total`) — proven for the
mock service loops and for the SDK batchUpload over the batch processor
alike; and at both layers, with `continueOnError = false` a failing item
makes the invocation re-throw the error of the first failing item, so no
BatchResult is produced. -/
theorem c2_results_length_and_abort (run : String → Except String α)
    (d : String → Nat) (td : Nat) (items : List String) (co : Option Bool)
    (r : BatchOperationResult α) (e : String)
    (work : String → Except String β) (opts : BatchUploadOptions)
    (dw rw : String → Nat) (fileIds : List String) (td2 : Nat)
    (r2 : BatchOperationResult β) (e2 : String) :
    (mockBatchFiles run d td items co = .ok r → r.results.length = r.total) ∧
    (co = some false → firstRunError run items = some e →
      mockBatchFiles run d td items co = .error e) ∧
    (sdkBatchUpload work opts dw rw fileIds td2 = .ok r2 →
      r2.results.length = r2.total) ∧
    (opts.continueOnError = some false → firstRunError work fileIds = some e2 →
      sdkBatchUpload work opts dw rw fileIds td2 = .error e2) := by
  refine ⟨?_, ?_, ?_, ?_⟩
  · intro h
    obtain ⟨htot, hrlen, -, -, -⟩ := mockBatchFiles_ok_fields run d td items co r h
    rw [hrlen, htot]
  · intro hco hfirst
    unfold mockBatchFiles
    rw [mockBatchGo_error_of_first run d co (by simp [hco]) items [] e hfirst]
  · intro h
    unfold sdkBatchUpload at h
    cases hp : processorAddBatch work (sdkContinueOnError opts) dw rw fileIds with
    | error e3 =>
      rw [hp] at h
      exact absurd h (by simp)
    | ok l =>
      rw [hp] at h
      simp only [Except.ok.injEq] at h
      subst h
      show l.length = fileIds.length
      exact processorAddBatch_ok_length work _ dw rw fileIds l hp
  · intro hco hfirst
    have hcof : sdkContinueOnError opts = false := by
      simp [sdkContinueOnError, hco]
    unfold sdkBatchUpload
    rw [hcof, processorAddBatch_error_of_first work dw rw fileIds e2 hfirst]

/-- C2 witness: the properties at concrete one-item batches at both layers —
a successful batch has one entry per item, and a failing batch with
continueOnError = false re-throws "boom". -/
theorem c2_witness :
    (({ total := 1, successful := 1, failed := 0, successRate := 100,
        totalDuration := 10, averageDuration := 10,
        results := [{ id := "a", success := true, data := some (7 : Nat),
                      error := none, duration := 0, retries := 0 }] } :
        BatchOperationResult Nat).results.length =
      ({ total := 1, successful := 1, failed := 0, successRate := 100,
         totalDuration := 10, averageDuration := 10,
         results := [{ id := "a", success := true, data := some (7 : Nat),
                       error := none, duration := 0, retries := 0 }] } :
        BatchOperationResult Nat).total) ∧
    mockBatchFiles runDemo durZero 10 ["b"] (some false) = .error "boom" ∧
    (({ total := 1, successful := 1, failed := 0, successRate := 1,
        totalDuration := 10, averageDuration := 10,
        results := [{ id := "a", success := true, data := some (7 : Nat),
                      error := none, duration := 0, retries := 0 }] } :
        BatchOperationResult Nat).results.length =
      ({ total := 1, successful := 1, failed := 0, successRate := 1,
         totalDuration := 10, averageDuration := 10,
         results := [{ id := "a", success := true, data := some (7 : Nat),
                       error := none, duration := 0, retries := 0 }] } :
        BatchOperationResult Nat).total) ∧
    sdkBatchUpload runDemo
      { concurrency := none, continueOnError := some false, maxRetries := none }
      durZero durZero ["b"] 10 = .error "boom" := by
  refine ⟨?_, ?_, ?_, ?_⟩
  · exact (c2_results_length_and_abort runDemo durZero 10 ["a"] (some true)
      { total := 1, successful := 1, failed := 0, successRate := 100,
        totalDuration := 10, averageDuration := 10,
        results := [{ id := "a", success := true, data := some (7 : Nat),
                      error := none, duration := 0, retries := 0 }] } "x"
      runDemo { concurrency := none, continueOnError := none, maxRetries := none }
      durZero durZero [] 0
      { total := 0, successful := 0, failed := 0, successRate := 0,
        totalDuration := 0, averageDuration := 0, results := [] } "x").1
      (by simp [mockBatchFiles, mockBatchGo, runDemo, durZero])
  · exact (c2_results_length_and_abort runDemo durZero 10 ["b"] (some false)
      { total := 0, successful := 0, failed := 0, successRate := 0,
        totalDuration := 0, averageDuration := 0, results := [] } "boom"
      runDemo { concurrency := none, continueOnError := none, maxRetries := none }
      durZero durZero [] 0
      { total := 0, successful := 0, failed := 0, successRate := 0,
        totalDuration := 0, averageDuration := 0, results := [] } "x").2.1
      rfl (by simp [firstRunError, runDemo])
  · exact (c2_results_length_and_abort runDemo durZero 0 [] none
      { total := 0, successful := 0, failed := 0, successRate := 0,
        totalDuration := 0, averageDuration := 0, results := [] } "x"
      runDemo { concurrency := none, continueOnError := some true, maxRetries := none }
      durZero durZero ["a"] 10
      { total := 1, successful := 1, failed := 0, successRate := 1,
        totalDuration := 10, averageDuration := 10,
        results := [{ id := "a", success := true, data := some (7 : Nat),
                      error := none, duration := 0, retries := 0 }] } "x").2.2.1
      (by simp [sdkBatchUpload, processorAddBatch, sdkContinueOnError,
        sdkBatchAggregate, runDemo, durZero])
  · exact (c2_results_length_and_abort runDemo durZero 0 [] none
      { total := 0, successful := 0, failed := 0, successRate := 0,
        totalDuration := 0, averageDuration := 0, results := [] } "x"
      runDemo { concurrency := none, continueOnError := some false, maxRetries := none }
      durZero durZero ["b"] 10
      { total := 0, successful := 0, failed := 0, successRate := 0,
        totalDuration := 0, averageDuration := 0, results := [] } "boom").2.2.2
      rfl (by simp [firstRunError, runDemo])

/-- C3 counterexample: with `continueOnError` left unspecified,
`MockLighthouseService.batchUploadFiles` re-throws the first item error —
behaving as `continueOnError = false` — while the very same call with
`continueOnError = true` returns an aggregated result. -/
theorem c3_default_counterexample :
    batchUploadFiles uploadDemoFail durZero 10 ["a"] none = .error "boom" ∧
    (batchUploadFiles uploadDemoFail durZero 10 ["a"] (some true)).isOk = true := by
  constructor
  · rfl
  · simp [batchUploadFiles, mockBatchFiles, mockBatchGo, uploadDemoFail,
      durZero, Except.map, Except.isOk, Except.toBool]

/-- C3 (amended): the SDK layer (`options.continueOnError ?? true`) and the
MCP tool layer (`params.continueOnError ?? true`) default a missing
continueOnError to true, but `MockLighthouseService` itself treats a missing
continueOnError as false: called directly without it, the first item failure
propagates as an exception instead of producing an aggregated result. -/
theorem c3_default_continue_amended (opts : BatchUploadOptions)
    (hnone : opts.continueOnError = none) (run : String → Except String α)
    (d : String → Nat) (td : Nat) (items : List String) (e : String)
    (hfirst : firstRunError run items = some e) :
    sdkContinueOnError opts = true ∧ toolContinueOnError none = true ∧
    mockBatchFiles run d td items none = .error e := by
  refine ⟨by simp [sdkContinueOnError, hnone], rfl, ?_⟩
  unfold mockBatchFiles
  rw [mockBatchGo_error_of_first run d none (by simp) items [] e hfirst]

/-- C3 witness: the amended statement at concrete inputs. -/
theorem c3_default_continue_witness :
    sdkContinueOnError { concurrency := none, continueOnError := none,
                         maxRetries := none } = true ∧
    toolContinueOnError none = true ∧
    mockBatchFiles runDemo durZero 10 ["b"] none = .error "boom" :=
  c3_default_continue_amended
    { concurrency := none, continueOnError := none, maxRetries := none }
    rfl runDemo durZero 10 ["b"] "boom" (by simp [firstRunError, runDemo])

theorem executeWithRetryTrace_no_breaker (rs : List Bool) :
    (executeWithRetryTrace rs).count SdkEv.breakerExec = 0 := by
  induction rs with
  | nil => rfl
  | cons b rest ih =>
    cases b <;> simp [executeWithRetryTrace, List.count_cons, ih]

/-- C4 counterexample: an uploadFile operation whose first attempt fails and
whose retry succeeds makes two attempts but passes through the circuit
breaker exactly once — the breaker does not see each retry attempt. -/
theorem c4_breaker_counterexample :
    (uploadFileTrace [false, true]).count SdkEv.attempt = 2 ∧
    (uploadFileTrace [false, true]).count SdkEv.breakerExec = 1 ∧
    ¬ ((uploadFileTrace [false, true]).count SdkEv.breakerExec =
        (uploadFileTrace [false, true]).count SdkEv.attempt) := by
  refine ⟨rfl, rfl, by decide⟩

/-- C4 (amended): during an SDK uploadFile operation the shared CircuitBreaker
is entered exactly once per operation, wrapping the whole retry loop — not
once per retry attempt. -/
theorem c4_breaker_wraps_retry_loop (attemptResults : List Bool) :
    (uploadFileTrace attemptResults).count SdkEv.breakerExec = 1 := by
  simp [uploadFileTrace, executeWithRateLimitTrace, List.count_cons,
    executeWithRetryTrace_no_breaker]

/-- C5 counterexample: for a two-item batch in which both items succeed, the
first invocation of the user onProgress callback is `(1, 2, 1)` — it reports
one failure although no item has failed so far. -/
theorem c5_progress_counterexample :
    batchUploadUserProgress [true, true] = [(1, 2, 1), (2, 2, 0)] ∧
    failuresSoFar [true, true] 1 = 0 ∧ ((1 : Nat) ≠ 0) := by
  refine ⟨rfl, rfl, by decide⟩

/-- C5 (amended): the k-th invocation of the user onProgress callback during
batchUpload carries `(k + 1, total, total - (k + 1))`: the third argument is
the number of items not yet completed (`total - completed`), which equals the
number of failures so far only once every item has completed. -/
theorem c5_progress_amended (outcomes : List Bool) (k : Nat)
    (hk : k < outcomes.length) :
    (batchUploadUserProgress outcomes).get? k =
      some (k + 1, outcomes.length, outcomes.length - (k + 1)) := by
  simp [batchUploadUserProgress, processorProgressReports, sdkProgressAdapter,
    List.get?_eq_getElem?, List.getElem?_map, List.getElem?_range hk]

/-- C5 witness: the amended statement at a concrete one-item batch. -/
theorem c5_progress_witness :
    (batchUploadUserProgress [true]).get? 0 = some (1, 1, 0) :=
  c5_progress_amended [true] 0 (by decide)


theorem validateBatchUploadParams_none_concurrency
    (stat : String → Option FileStat) (params : BatchUploadParams) (c : Rat)
    (hc : params.concurrency = some c)
    (hnone : validateBatchUploadParams stat params = none) :
    1 ≤ c ∧ c ≤ 10 := by
  unfold validateBatchUploadParams at hnone
  rw [hc] at hnone
  split at hnone
  · exact absurd hnone (by simp)
  · split at hnone
    · exact absurd hnone (by simp)
    · split at hnone
      · exact absurd hnone (by simp)
      · split at hnone
        · exact absurd hnone (by simp)
        · split at hnone
          · exact absurd hnone (by simp)
          · split at hnone
            · rename_i x2 c2 heq
              injection heq with heq2
              subst heq2
              split at hnone
              · exact absurd hnone (by simp)
              · rename_i hin
                push_neg at hin
                exact hin
            · rename_i x2 heq
              exact absurd heq (by simp)

/-- C6 counterexample: with an otherwise valid request, concurrency 11 does
not proceed with a clamped value — validation rejects it and the tool never
invokes the service. -/
theorem c6_clamp_counterexample :
    validateBatchUploadParams statDemo (uploadParamsDemo (some 11)) =
      some "concurrency must be a number between 1 and 10" ∧
    batchUploadToolServiceCall statDemo (uploadParamsDemo (some 11)) = none := by
  constructor
  · rfl
  · rfl

/-- C6 (amended): the batch tools do not clamp — any concurrency outside
1 to 10 fails validation (the download tool with the same message), so the
tool refuses the request and the service is not called; when concurrency is
omitted and validation passes, the tool calls the service with
concurrency 3. -/
theorem c6_concurrency_amended (stat : String → Option FileStat)
    (params params2 : BatchUploadParams) (c : Rat)
    (hc : params.concurrency = some c) (hout : c < 1 ∨ 10 < c)
    (h2 : params2.concurrency = none)
    (hval : validateBatchUploadParams stat params2 = none) :
    batchUploadToolServiceCall stat params = none ∧
    validateDownloadConcurrency (some c) =
      some "concurrency must be a number between 1 and 10" ∧
    batchUploadToolServiceCall stat params2 =
      some { concurrency := 3,
             continueOnError := toolContinueOnError params2.continueOnError } := by
  refine ⟨?_, ?_, ?_⟩
  · unfold batchUploadToolServiceCall
    cases hv : validateBatchUploadParams stat params with
    | some msg => rfl
    | none =>
      exfalso
      have hb := validateBatchUploadParams_none_concurrency stat params c hc hv
      rcases hout with h | h
      · exact absurd hb.1 (not_le_of_lt h)
      · exact absurd hb.2 (not_le_of_lt h)
  · simp [validateDownloadConcurrency, hout]
  · unfold batchUploadToolServiceCall
    rw [hval]
    simp [jsNumOr, h2]

/-- C6 witness: the amended statement at concrete parameters (concurrency 11
rejected; omitted concurrency resolved to 3). -/
theorem c6_concurrency_witness :
    batchUploadToolServiceCall statDemo (uploadParamsDemo (some 11)) = none ∧
    validateDownloadConcurrency (some 11) =
      some "concurrency must be a number between 1 and 10" ∧
    batchUploadToolServiceCall statDemo (uploadParamsDemo none) =
      some { concurrency := 3, continueOnError := true } := by
  have h := c6_concurrency_amended statDemo (uploadParamsDemo (some 11))
    (uploadParamsDemo none) 11 rfl (by norm_num) rfl rfl
  exact ⟨h.1, h.2.1, h.2.2⟩

/-- C7: a batch item tracks a reservation before the transfer and untracks the
same id when the item finishes, whether the transfer succeeds or throws;
a fresh id (as produced per operation) leaves the tracker map exactly as it
was before the item started, and the transfer outcome is passed through. -/
theorem c7_track_untrack_balanced (m : List (String × Nat)) (memoryId : String)
    (size : Nat) (transfer : Except String α)
    (hfresh : ∀ q ∈ m, q.1 ≠ memoryId) :
    (batchItemWithMemory m memoryId size transfer).1 = m ∧
    (batchItemWithMemory m memoryId size transfer).2 = transfer := by
  have hm : m.filter (fun p => p.1 != memoryId) = m := by
    apply List.filter_eq_self.mpr
    intro p hp
    simpa using hfresh p hp
  cases transfer <;>
    simp [batchItemWithMemory, memTrack, memUntrack, hm, List.filter_cons]

/-- C7 witness: the balanced track/untrack at a concrete tracker state and a
throwing transfer. -/
theorem c7_track_untrack_witness :
    (batchItemWithMemory [("x", 5)] "y" 7 (.error "boom" : Except String Nat)).1 =
      [("x", 5)] ∧
    (batchItemWithMemory [("x", 5)] "y" 7 (.error "boom" : Except String Nat)).2 =
      .error "boom" :=
  c7_track_untrack_balanced [("x", 5)] "y" 7 (.error "boom") (by decide)

theorem cbFailN_from_closed (cfg : CircuitBreakerConfig) (t0 : Nat) :
    ∀ (n : Nat) (cb : CircuitBreaker), cb.state = .closed → 0 < n →
      cb.failureCount + n = cfg.failureThreshold →
      cbFailN cfg t0 n cb =
        { state := .opened, failureCount := cfg.failureThreshold,
          openedAt := t0, probeInFlight := false } := by
  intro n
  induction n with
  | zero =>
    intro cb _ h0 _
    exact absurd h0 (by omega)
  | succ m ih =>
    intro cb hst hpos hsum
    obtain ⟨st, fc, oa, pif⟩ := cb
    simp only at hst
    subst hst
    simp only at hsum
    have hcall : cbFailedCall cfg t0 ⟨.closed, fc, oa, pif⟩ =
        (if cfg.failureThreshold ≤ fc + 1 then
          ({ state := .opened, failureCount := fc + 1, openedAt := t0,
             probeInFlight := false } : CircuitBreaker)
        else ⟨.closed, fc + 1, oa, pif⟩) := by
      simp [cbFailedCall, cbBegin, cbEnd]
    rcases Nat.eq_zero_or_pos m with hm | hm
    · subst hm
      simp only [cbFailN, hcall]
      rw [if_pos (by omega)]
      have : fc + 1 = cfg.failureThreshold := by omega
      rw [this]
    · simp only [cbFailN, hcall]
      rw [if_neg (by omega)]
      exact ih ⟨.closed, fc + 1, oa, pif⟩ rfl hm (by simp; omega)

/-- C8: after failureThreshold consecutive failures the breaker is OPEN with
`openedAt` the failure time; while `now` is within resetTimeout of opening,
every call is rejected without invoking the wrapped function and the state is
unchanged; once resetTimeout has elapsed, exactly one probe is admitted (a
concurrent second call during the probe is rejected), probe success closes
the circuit and probe failure re-opens it with a fresh `openedAt`. -/
theorem c8_circuit_breaker_lifecycle (cfg : CircuitBreakerConfig) (t0 : Nat)
    (hth : 0 < cfg.failureThreshold) :
    cbAfterTrip cfg t0 =
      { state := .opened, failureCount := cfg.failureThreshold,
        openedAt := t0, probeInFlight := false } ∧
    (∀ now, t0 ≤ now → now < t0 + cfg.resetTimeout →
      cbBegin cfg (cbAfterTrip cfg t0) now = (cbAfterTrip cfg t0, false)) ∧
    (∀ now, t0 + cfg.resetTimeout ≤ now →
      (cbBegin cfg (cbAfterTrip cfg t0) now).2 = true ∧
      (cbBegin cfg (cbBegin cfg (cbAfterTrip cfg t0) now).1 now).2 = false ∧
      (cbEnd cfg (cbBegin cfg (cbAfterTrip cfg t0) now).1 now true).state =
        .closed ∧
      (cbEnd cfg (cbBegin cfg (cbAfterTrip cfg t0) now).1 now false).state =
        .opened ∧
      (cbEnd cfg (cbBegin cfg (cbAfterTrip cfg t0) now).1 now false).openedAt =
        now) := by
  have htrip : cbAfterTrip cfg t0 =
      { state := .opened, failureCount := cfg.failureThreshold,
        openedAt := t0, probeInFlight := false } :=
    cbFailN_from_closed cfg t0 cfg.failureThreshold cbInit rfl hth (by simp [cbInit])
  refine ⟨htrip, ?_, ?_⟩
  · intro now h1 h2
    rw [htrip]
    simp only [cbBegin]
    rw [if_neg (by omega)]
  · intro now hge
    rw [htrip]
    simp only [cbBegin]
    rw [if_pos (by omega)]
    refine ⟨rfl, by simp [cbBegin], by simp [cbEnd], by simp [cbEnd], by simp [cbEnd]⟩

/-- C8 witness: the lifecycle at threshold 3, reset timeout 100, trip time 5 —
a call at time 50 is rejected with the state unchanged; a call at time 200 is
admitted as the probe. -/
theorem c8_circuit_breaker_witness :
    cbBegin ⟨3, 100⟩ (cbAfterTrip ⟨3, 100⟩ 5) 50 = (cbAfterTrip ⟨3, 100⟩ 5, false) ∧
    (cbBegin ⟨3, 100⟩ (cbAfterTrip ⟨3, 100⟩ 5) 200).2 = true := by
  have h := c8_circuit_breaker_lifecycle ⟨3, 100⟩ 5 (by decide)
  exact ⟨h.2.1 50 (by decide) (by decide), (h.2.2 200 (by decide)).1⟩

/-- C9: `acquire` returns an idle connection when one exists; otherwise it
creates a new connection when the total is below maxConnections; otherwise it
appends the request to the wait queue, from which the acquire timeout removes
it again while rejecting with the timeout error; a release while the queue is
non-empty resolves the oldest waiter with the released connection. -/
theorem c9_pool_acquire_contract (cfg : PoolConfig) (s : PoolState) :
    (∀ c rest, s.idle = c :: rest →
      poolAcquire cfg s =
        ({ s with idle := rest, active := c :: s.active }, .conn c)) ∧
    (s.idle = [] → poolTotal s < cfg.maxConnections →
      poolAcquire cfg s =
        ({ s with active := s.nextConnId :: s.active,
                  nextConnId := s.nextConnId + 1 }, .conn s.nextConnId)) ∧
    (s.idle = [] → cfg.maxConnections ≤ poolTotal s →
      s.nextReqId ∉ s.waitQueue →
      (poolAcquire cfg s).2 = .queued s.nextReqId ∧
      (poolAcquire cfg s).1.waitQueue = s.waitQueue ++ [s.nextReqId] ∧
      (poolTimeout (poolAcquire cfg s).1 s.nextReqId).2 =
        some "Connection acquire timeout" ∧
      (poolTimeout (poolAcquire cfg s).1 s.nextReqId).1.waitQueue =
        s.waitQueue ∧
      s.nextReqId ∉ (poolTimeout (poolAcquire cfg s).1 s.nextReqId).1.waitQueue) ∧
    (∀ connId r rest, connId ∈ s.active → s.waitQueue = r :: rest →
      poolRelease s connId = ({ s with waitQueue := rest }, some (r, connId))) := by
  refine ⟨?_, ?_, ?_, ?_⟩
  · intro c rest hidle
    simp [poolAcquire, hidle]
  · intro hidle hlt
    simp only [poolAcquire, hidle]
    rw [if_pos (by simpa [poolTotal, hidle] using hlt)]
  · intro hidle hge hfresh
    have hq : poolAcquire cfg s =
        ({ s with waitQueue := s.waitQueue ++ [s.nextReqId],
                  nextReqId := s.nextReqId + 1 }, .queued s.nextReqId) := by
      simp only [poolAcquire, hidle]
      rw [if_neg (by
        have hge2 := hge
        simp only [poolTotal, hidle, List.length_nil] at hge2 ⊢
        omega)]
    have herase : (s.waitQueue ++ [s.nextReqId]).erase s.nextReqId =
        s.waitQueue := by
      rw [List.erase_append_right _ hfresh]
      simp
    rw [hq]
    have hmem : s.nextReqId ∈ s.waitQueue ++ [s.nextReqId] := by simp
    refine ⟨rfl, rfl, ?_, ?_, ?_⟩
    · simp [poolTimeout, hmem]
    · simp [poolTimeout, hmem, herase]
    · simp [poolTimeout, hmem, herase]
      exact hfresh
  · intro connId r rest hmem hq
    simp [poolRelease, hmem, hq]

/-- C9 witness: the contract at a concrete exhausted pool (max 1, one active
connection) — the acquire queues request 7, the timeout removes it, and a
release resolves a waiting request. -/
theorem c9_pool_acquire_witness :
    (poolAcquire ⟨1⟩ ⟨[], [0], 1, [], 7⟩).2 = .queued 7 ∧
    (poolTimeout (poolAcquire ⟨1⟩ ⟨[], [0], 1, [], 7⟩).1 7).2 =
      some "Connection acquire timeout" ∧
    poolRelease ⟨[], [0], 1, [9], 7⟩ 0 =
      (⟨[], [0], 1, [], 7⟩, some (9, 0)) := by
  have h := c9_pool_acquire_contract ⟨1⟩ ⟨[], [0], 1, [], 7⟩
  have h3 := h.2.2.1 rfl (by decide) (by decide)
  have h4 := (c9_pool_acquire_contract ⟨1⟩ ⟨[], [0], 1, [9], 7⟩).2.2.2 0 9 []
    (by decide) rfl
  exact ⟨h3.1, h3.2.2.1, h4⟩
